import Mathlib

/-!
Verification development for the `python_vimeo` client wrapper
(`src/python_vimeo/client.py`).

The client is a thin wrapper around the Vimeo REST API.  Each public
method builds one HTTP request (or delegates to the PyVimeo SDK),
issues it, records the response status in a mutable `response_code`
field, and returns a value derived from the response.

We embed each method as a pure Lean function.  Network effects are made
explicit: the HTTP responses a method would receive are parameters, and
each method returns the list of HTTP requests it issued, the new value
of the `response_code` field, and its Python return value.  Python
exceptions are modelled with `Except Unit`; Python `None` with
`Option`; JSON values with the inductive `JVal`.
-/

namespace PyVimeo

/-- JSON-like values, modelling Python dicts/lists/strings as used for
request and response bodies. -/
inductive JVal where
  | null : JVal
  | bool : Bool → JVal
  | num : Int → JVal
  | str : String → JVal
  | arr : List JVal → JVal
  | obj : List (String × JVal) → JVal

/-- Dictionary lookup `d[k]` returning `none` when `d` is not a dict or
lacks the key (Python raises `KeyError`/`TypeError` there). -/
def jlookup (v : JVal) (k : String) : Option JVal :=
  match v with
  | .obj fields => fields.lookup k
  | _ => none

/-- HTTP methods used by the client. -/
inductive Method where
  | GET | POST | PUT | PATCH | DELETE | HEAD
deriving DecidableEq

/-- An HTTP request as built by the client: method, full URL, optional
JSON body. -/
structure HttpRequest where
  method : Method
  url : String
  body : Option JVal

/-- An HTTP response as seen by the client: numeric status code, headers
and the JSON-decoded body. -/
structure HttpResponse where
  status_code : Nat
  headers : List (String × String)
  jsonBody : JVal

/-- `response.headers[k]` presence test and access (membership check in
the source: `'Content-Length' in response.headers`). -/
def lookupHeader (headers : List (String × String)) (k : String) : Option String :=
  headers.lookup k

/-! ### Executable string primitives

The Python methods used by the client (`str.split`, `str.startswith`,
`str.replace`, `str.join`) are implemented here over character lists by
structural recursion, so that every definition in this file evaluates
inside the kernel. -/

/-- `some rest` when `pre` is a prefix of `l`, with `rest` the remainder. -/
def stripPre : List Char → List Char → Option (List Char)
  | [], l => some l
  | _ :: _, [] => none
  | p :: ps, x :: xs => if p == x then stripPre ps xs else none

/-- Worker for `splitOnList`; the fuel argument only makes the
recursion structural and is always sufficient. -/
def splitOnListAux (sep : List Char) : Nat → List Char → List Char → List (List Char)
  | 0, acc, _ => [acc.reverse]
  | _ + 1, acc, [] => [acc.reverse]
  | n + 1, acc, x :: xs =>
    match stripPre sep (x :: xs) with
    | some rest => acc.reverse :: splitOnListAux sep n [] rest
    | none => splitOnListAux sep n (x :: acc) xs

/-- Python `s.split(sep)` (non-empty `sep`) on character lists. -/
def splitOnList (sep l : List Char) : List (List Char) :=
  splitOnListAux sep (l.length + 1) [] l

/-- Python `s.split(sep)` for strings. -/
def pySplit (s sep : String) : List String :=
  (splitOnList sep.data s.data).map String.mk

/-- Python `s.startswith(pre)`. -/
def pyStartsWith (s pre : String) : Bool :=
  pre.data.isPrefixOf s.data

/-- Worker for `pyReplace`; fuel makes the recursion structural. -/
def replaceListAux (pat rep : List Char) : Nat → List Char → List Char
  | 0, l => l
  | _ + 1, [] => []
  | n + 1, x :: xs =>
    match stripPre pat (x :: xs) with
    | some rest => rep ++ replaceListAux pat rep n rest
    | none => x :: replaceListAux pat rep n xs

/-- Python `s.replace(pat, rep)` (non-empty `pat`). -/
def pyReplace (s pat rep : String) : String :=
  String.mk (replaceListAux pat.data rep.data (s.data.length + 1) s.data)

/-- Python `sep.join(parts)` on character lists. -/
def joinSep (sep : List Char) : List (List Char) → List Char
  | [] => []
  | [x] => x
  | x :: y :: rest => x ++ sep ++ joinSep sep (y :: rest)

/-- Python `sep.join(parts)` for strings. -/
def pyJoin (sep : String) (parts : List String) : String :=
  String.mk (joinSep sep.data (parts.map String.data))

/-- Python truthiness of an optional string (`None` and `""` are falsy). -/
def pyTruthyStr : Option String → Bool
  | none => false
  | some s => !s.data.isEmpty

/-- Python truthiness of an optional natural number (`None` and `0` are
falsy). -/
def pyTruthyNat : Option Nat → Bool
  | none => false
  | some 0 => false
  | some (_ + 1) => true

/-- `video_uri.split("/").pop()`: the last `/`-separated segment. -/
def lastSegment (s : String) : String :=
  (pySplit s "/").getLastD ""

/-- `os.path.basename` on a POSIX path / URL: text after the last `/`. -/
def basename (s : String) : String :=
  lastSegment s

/-- `Vimeo._set_response_code` (client.py:51-59): stores the status
code, resetting the field to `None` when the argument is falsy
(`None` or `0`). -/
def set_response_code (status_code : Option Nat) : Option Nat :=
  match status_code with
  | none => none
  | some 0 => none
  | some n => some n

/-- Outcome of one client call: the HTTP requests issued, the value of
the `response_code` field afterwards, and the Python return value. -/
structure CallOutcome (α : Type) where
  requests : List HttpRequest
  code : Option Nat
  ret : α

/-! ## upload_video (client.py:61-89) -/

/-- The default privacy sub-object shared by `upload_video` and
`pull_video_from_url`. -/
def defaultPrivacy : JVal :=
  .obj [("download", .bool false), ("embed", .str "whitelist"),
        ("comments", .str "nobody"), ("view", .str "disable")]

/-- The default `data` template of `upload_video`. -/
def upload_video_default_data (video_name video_description : Option String) : JVal :=
  .obj [("name", match video_name with | some s => .str s | none => .null),
        ("description", match video_description with | some s => .str s | none => .null),
        ("content_rating", .arr [.str "safe"]),
        ("privacy", defaultPrivacy),
        ("review_page", .obj [("active", .bool false)])]

/-- The `data` argument passed to the SDK upload call:
`{...} if not settings else settings`. -/
def upload_video_data (video_name video_description : Option String)
    (settings : List (String × JVal)) : JVal :=
  if settings.isEmpty then upload_video_default_data video_name video_description
  else .obj settings

/-- `Vimeo.upload_video`: delegates the transfer to the SDK (modelled by
`sdk_uri`, the `video_uri` the SDK call returns), then sets
`response_code` to `200` when the returned URI is truthy and resets it
to `None` otherwise.  The `data` the SDK was given is exposed in the
result for inspection. -/
def upload_video (_st : Option Nat) (video_name video_description : Option String)
    (settings : List (String × JVal)) (sdk_uri : Option String) :
    (Option Nat) × (Option String) × JVal :=
  let data := upload_video_data video_name video_description settings
  let code := set_response_code (if pyTruthyStr sdk_uri then some 200 else none)
  (code, sdk_uri, data)

/-! ## upload_picture (client.py:91-119) -/

/-- Outcome of `upload_picture`: the `response_code` field afterwards,
the return value or the propagated exception, and whether the
downloaded temporary file still exists when the call completes (only
meaningful for remote URLs). -/
structure PicOutcome where
  code : Option Nat
  ret : Except Unit JVal
  tempFileRemains : Bool

/-- `Vimeo.upload_picture`: when `file_path` starts with `"http"`, the
file is first downloaded to `os.path.basename(file_path)`; the SDK
upload (modelled by `sdk_outcome`; `.error ()` when it raises) runs
next; only after it returns normally does
`if local_file and os.path.exists(local_file): os.remove(local_file)`
run.  No `_set_response_code` call appears in this method, so the
`response_code` field is passed through unchanged. -/
def upload_picture (st : Option Nat) (file_path : String)
    (sdk_outcome : Except Unit JVal) : PicOutcome :=
  let isRemote := pyStartsWith file_path "http"
  let local_file : Option String := if isRemote then some (basename file_path) else none
  match sdk_outcome with
  | .error e => ⟨st, .error e, isRemote⟩
  | .ok r =>
      let removed := match local_file with
        | some name => !name.data.isEmpty && isRemote
        | none => false
      ⟨st, .ok r, isRemote && !removed⟩

/-! ## get_video and get_common_video_information (client.py:121-149) -/

/-- `Vimeo.get_video`: one GET request to
`https://api.vimeo.com/videos/{id}` where `{id}` is the last path
segment of `video_uri`; stores the status code; returns the decoded
JSON body. -/
def get_video (video_uri : String) (resp : HttpResponse) : CallOutcome JVal :=
  let video_id := lastSegment video_uri
  { requests := [⟨.GET, "https://api.vimeo.com/videos/" ++ video_id, none⟩],
    code := set_response_code (some resp.status_code),
    ret := resp.jsonBody }

/-- `Vimeo.get_common_video_information`: calls `get_video` and projects
six fields; any missing field raises `KeyError` (modelled as `.error`). -/
def get_common_video_information (video_uri : String) (resp : HttpResponse) :
    CallOutcome (Except Unit (List (String × JVal))) :=
  let g := get_video video_uri resp
  let video := g.ret
  let proj : Except Unit (List (String × JVal)) := do
    let transcode ← (jlookup video "transcode").elim (.error ()) .ok
    let status ← (jlookup transcode "status").elim (.error ()) .ok
    let is_playable ← (jlookup video "is_playable").elim (.error ()) .ok
    let link ← (jlookup video "link").elim (.error ()) .ok
    let duration ← (jlookup video "duration").elim (.error ()) .ok
    let width ← (jlookup video "width").elim (.error ()) .ok
    let height ← (jlookup video "height").elim (.error ()) .ok
    pure [("status", status), ("is_playable", is_playable), ("link", link),
          ("duration", duration), ("width", width), ("height", height)]
  { requests := g.requests, code := g.code, ret := proj }

/-! ## change_video_content_rating (client.py:151-170) -/

/-- The fixed closed set of supported content ratings. -/
def validRatings : List String :=
  ["violence", "drugs", "language", "nudity", "advertisement", "safe", "unrated"]

/-- `Vimeo.change_video_content_rating`: raises `NotImplementedError`
(`.error ()`) before building any request when `rating` is outside
`validRatings`; otherwise issues one PATCH to
`https://api.vimeo.com/videos/{id}` with body
`{"content_rating": [rating]}`, stores the status code and returns the
decoded response body. -/
def change_video_content_rating (st : Option Nat) (video_uri : String)
    (rating : String) (resp : HttpResponse) : CallOutcome (Except Unit JVal) :=
  if rating ∈ validRatings then
    let video_id := lastSegment video_uri
    let data : JVal := .obj [("content_rating", .arr [.str rating])]
    { requests := [⟨.PATCH, "https://api.vimeo.com/videos/" ++ video_id, some data⟩],
      code := set_response_code (some resp.status_code),
      ret := .ok resp.jsonBody }
  else
    { requests := [], code := st, ret := .error () }

/-! ## pull_video_from_url (client.py:173-247) -/

/-- The `file_size` placed in the request body when the caller's value
is falsy (`None` or `0`): the raw `Content-Length` header string when
present, the integer `0` otherwise. -/
def pull_head_size (headers : List (String × String)) : JVal :=
  match lookupHeader headers "Content-Length" with
  | some v => .str v
  | none => .num 0

/-- The preliminary requests of `pull_video_from_url`: a single HEAD to
`download_url` exactly when the caller's `file_size` is falsy
(`if not file_size`, client.py:186-187). -/
def pull_head_reqs (download_url : String) (file_size : Option Nat) : List HttpRequest :=
  if pyTruthyNat file_size then [] else [⟨.HEAD, download_url, none⟩]

/-- The `file_size` value placed in the request body: the caller's value
when truthy, otherwise the result of the HEAD request
(client.py:186-188). -/
def pull_size (file_size : Option Nat) (headers : List (String × String)) : JVal :=
  if pyTruthyNat file_size then .num (file_size.getD 0) else pull_head_size headers

/-- The default `embed` appearance sub-object of `pull_video_from_url`
(client.py:208-232). -/
def pullDefaultEmbed (logo_link : String) : JVal :=
  .obj [("buttons", .obj [("embed", .bool false), ("fullscreen", .bool true),
                          ("hd", .bool true), ("share", .bool false),
                          ("watchlater", .bool false)]),
        ("color", .str "#feeff0"),
        ("logos", .obj [
          ("custom", .obj [("active", .bool true),
                           ("link", if logo_link.data.isEmpty then .null else .str logo_link),
                           ("sticky", .bool true)]),
          ("vimeo", .bool false)]),
        ("playbar", .bool true),
        ("title", .obj [("name", .str "hide"), ("owner", .str "hide"),
                        ("portrait", .str "hide")]),
        ("volume", .bool true)]

/-- The default `data` template of `pull_video_from_url`
(client.py:190-234). -/
def pull_default_data (download_url video_name : String) (folder_uri : Option String)
    (size : JVal) (logo_link : String) : JVal :=
  .obj [("name", .str video_name),
        ("description", .str ""),
        ("upload", .obj [("approach", .str "pull"), ("size", size),
                         ("link", .str download_url)]),
        ("content_rating", .arr [.str "safe"]),
        ("privacy", defaultPrivacy),
        ("review_page", .obj [("active", .bool false)]),
        ("embed", pullDefaultEmbed logo_link),
        ("folder_uri", if pyTruthyStr folder_uri then .str (folder_uri.getD "") else .null)]

/-- `Vimeo.pull_video_from_url`: when the caller's `file_size` is falsy
(`None` or `0`), first issues a HEAD request to `download_url` and
takes the size from its `Content-Length` header (`0` when absent);
then POSTs to `https://api.vimeo.com/me/videos` with either the
default template or, when `settings` is a non-empty dict, exactly
`settings`; stores the POST status code and returns
`response['uri']` (`none` models the `KeyError` when absent). -/
def pull_video_from_url (download_url video_name : String) (folder_uri : Option String)
    (file_size : Option Nat) (settings : List (String × JVal)) (logo_link : String)
    (headResp postResp : HttpResponse) : CallOutcome (Option JVal) :=
  let data :=
    if settings.isEmpty then
      pull_default_data download_url video_name folder_uri
        (pull_size file_size headResp.headers) logo_link
    else .obj settings
  { requests := pull_head_reqs download_url file_size
                  ++ [⟨.POST, "https://api.vimeo.com/me/videos", some data⟩],
    code := set_response_code (some postResp.status_code),
    ret := jlookup postResp.jsonBody "uri" }

/-! ## simple per-endpoint methods (client.py:249-424) -/

/-- `Vimeo.update_video_title`: PATCH to `https://api.vimeo.com{video_uri}`
with `{"name": title}`; returns the status code. -/
def update_video_title (video_uri title : String) (resp : HttpResponse) :
    CallOutcome Nat :=
  { requests := [⟨.PATCH, "https://api.vimeo.com" ++ video_uri,
                  some (.obj [("name", .str title)])⟩],
    code := set_response_code (some resp.status_code),
    ret := resp.status_code }

/-- `Vimeo.delete_video`: DELETE to `https://api.vimeo.com{video_uri}`;
returns the status code. -/
def delete_video (video_uri : String) (resp : HttpResponse) : CallOutcome Nat :=
  { requests := [⟨.DELETE, "https://api.vimeo.com" ++ video_uri, none⟩],
    code := set_response_code (some resp.status_code),
    ret := resp.status_code }

/-- `Vimeo.create_folder`: POST to
`https://api.vimeo.com/users/{USER_ID}/projects`; returns
`response['uri']` (`none` models a `KeyError`). -/
def create_folder (user_id : Option Int) (folder_name : String) (resp : HttpResponse) :
    CallOutcome (Option JVal) :=
  { requests := [⟨.POST, "https://api.vimeo.com/users/"
                  ++ (match user_id with | some n => toString n | none => "None")
                  ++ "/projects",
                  some (.obj [("name", .str folder_name)])⟩],
    code := set_response_code (some resp.status_code),
    ret := jlookup resp.jsonBody "uri" }

/-- `Vimeo.update_folder_name`: PATCH to
`https://api.vimeo.com{folder_uri}` with `{"name": new_folder_name}`;
returns `folder_uri` itself (the decoded response body is discarded). -/
def update_folder_name (folder_uri new_folder_name : String) (resp : HttpResponse) :
    CallOutcome String :=
  { requests := [⟨.PATCH, "https://api.vimeo.com" ++ folder_uri,
                  some (.obj [("name", .str new_folder_name)])⟩],
    code := set_response_code (some resp.status_code),
    ret := folder_uri }

/-- `Vimeo.delete_folder`: DELETE to `https://api.vimeo.com{folder_uri}`
with `{"should_delete_clips": flag}`; returns `folder_uri` itself. -/
def delete_folder (folder_uri : String) (delete_all_videos_in_folder : Bool)
    (resp : HttpResponse) : CallOutcome String :=
  { requests := [⟨.DELETE, "https://api.vimeo.com" ++ folder_uri,
                  some (.obj [("should_delete_clips", .bool delete_all_videos_in_folder)])⟩],
    code := set_response_code (some resp.status_code),
    ret := folder_uri }

/-- `Vimeo.remove_video_from_folder`: DELETE to
`https://api.vimeo.com{folder_uri}/videos/{video_id}`; returns
`folder_uri` itself. -/
def remove_video_from_folder (folder_uri video_uri : String) (resp : HttpResponse) :
    CallOutcome String :=
  { requests := [⟨.DELETE, "https://api.vimeo.com" ++ folder_uri ++ "/videos/"
                  ++ lastSegment video_uri, none⟩],
    code := set_response_code (some resp.status_code),
    ret := folder_uri }

/-- `Vimeo.add_video_to_folder`: PUT to
`https://api.vimeo.com{folder_uri}/videos/{video_id}`; returns the
status code. -/
def add_video_to_folder (folder_uri video_uri : String) (resp : HttpResponse) :
    CallOutcome Nat :=
  { requests := [⟨.PUT, "https://api.vimeo.com" ++ folder_uri ++ "/videos/"
                  ++ lastSegment video_uri, none⟩],
    code := set_response_code (some resp.status_code),
    ret := resp.status_code }

/-- `Vimeo.tag_video`: PUT to
`https://api.vimeo.com/videos/{video_id}/tags/{tag}` where `video_id`
is the last path segment of `video_uri`; returns the status code. -/
def tag_video (video_uri tag : String) (resp : HttpResponse) : CallOutcome Nat :=
  { requests := [⟨.PUT, "https://api.vimeo.com/videos/" ++ lastSegment video_uri
                  ++ "/tags/" ++ tag, none⟩],
    code := set_response_code (some resp.status_code),
    ret := resp.status_code }

/-- `Vimeo.remove_tag_from_video`: DELETE to
`https://api.vimeo.com/videos/{video_id}/tags/{tag}`; returns the
status code. -/
def remove_tag_from_video (video_uri tag : String) (resp : HttpResponse) :
    CallOutcome Nat :=
  { requests := [⟨.DELETE, "https://api.vimeo.com/videos/" ++ lastSegment video_uri
                  ++ "/tags/" ++ tag, none⟩],
    code := set_response_code (some resp.status_code),
    ret := resp.status_code }

/-- `Vimeo.domain_whitelist_video`: PUT to
`https://api.vimeo.com/videos/{video_id}/privacy/domains/{domain}`;
returns the status code. -/
def domain_whitelist_video (video_uri domain : String) (resp : HttpResponse) :
    CallOutcome Nat :=
  { requests := [⟨.PUT, "https://api.vimeo.com/videos/" ++ lastSegment video_uri
                  ++ "/privacy/domains/" ++ domain, none⟩],
    code := set_response_code (some resp.status_code),
    ret := resp.status_code }

/-! ## get_video_hash (client.py:426-447)

The extraction pipeline delegates HTML parsing to BeautifulSoup and URL
parsing to `urllib.parse`; those library calls are modelled by the
executable functions below (first `iframe` tag's `src` attribute; query
component after the first `?`; `parse_qs` keeping only `k=v` pairs with
a non-empty value).  Every step that can raise in Python is `Option`-
valued here, and the `try/except Exception` of the source turns a
failure at any step into the empty string. -/

/-- Model of `BeautifulSoup(html, "html.parser").find("iframe").get("src")`:
the `src="..."` attribute inside the first `<iframe ...>` tag, `none`
when there is no iframe tag or it has no `src` attribute (both raise
`AttributeError` in the source and are caught). -/
def findIframeSrc (html : String) : Option String :=
  match pySplit html "<iframe" with
  | _ :: rest :: _ =>
    let tag := (pySplit rest ">").headD rest
    match pySplit tag "src=\"" with
    | _ :: v :: _ => some ((pySplit v "\"").headD v)
    | _ => none
  | _ => none

/-- Model of `urlparse(url).query`: the part after the first `?`, with
any `#`-fragment removed first. -/
def urlQuery (url : String) : String :=
  match pySplit ((pySplit url "#").headD url) "?" with
  | [] => ""
  | _ :: rest => pyJoin "?" rest

/-- Model of `urllib.parse.parse_qsl`: split the query on `&`, keep the
`key=value` pairs whose value is non-empty (default
`keep_blank_values=False`, `strict_parsing=False`). -/
def parse_qsl (query : String) : List (String × String) :=
  (pySplit query "&").filterMap fun pair =>
    match pySplit pair "=" with
    | [_] => none
    | k :: vs =>
      let v := pyJoin "=" vs
      if v.data.isEmpty then none else some (k, v)
    | [] => none

/-- Model of `parse_qs(query)[key]`: all values for `key`, `none` when
there are none (a `KeyError` in the source, caught). -/
def parse_qs_get (query key : String) : Option (List String) :=
  match (parse_qsl query).filterMap (fun kv => if kv.1 == key then some kv.2 else none) with
  | [] => none
  | vs => some vs

/-- `v` as a Python string; anything else fed to BeautifulSoup raises
`TypeError` (caught). -/
def asStr : JVal → Option String
  | .str s => some s
  | _ => none

/-- The `try` block of `get_video_hash` (client.py:437-444): each step
yields `none` exactly when the corresponding Python expression raises. -/
def hashExtract (video : JVal) : Option String := do
  let embed ← jlookup video "embed"
  let htmlV ← jlookup embed "html"
  let html ← asStr htmlV
  let src ← findIframeSrc html
  let hs ← parse_qs_get (urlQuery (pyReplace src "&amp;" "&")) "h"
  hs.head?

/-- `Vimeo.get_video_hash`: fetches the video record via `get_video`,
then runs the extraction pipeline under `try/except Exception`,
returning `''` on any failure. -/
def get_video_hash (video_uri : String) (resp : HttpResponse) : CallOutcome String :=
  let g := get_video video_uri resp
  { requests := g.requests, code := g.code,
    ret := (hashExtract g.ret).getD "" }

/-! ## Concrete example values used by witnesses -/

/-- A typical Vimeo embed-code snippet whose iframe `src` carries an
`h` query parameter. -/
def embedHtmlEx : String :=
  "<iframe src=\"https://player.vimeo.com/video/658371443?h=abcdef12&amp;badge=0\" width=\"640\"></iframe>"

/-- A video record whose `embed.html` field holds `embedHtmlEx`. -/
def videoRecordEx : JVal :=
  .obj [("embed", .obj [("html", .str embedHtmlEx)])]

/-- A 200 response carrying `videoRecordEx`. -/
def respEx : HttpResponse :=
  ⟨200, [], videoRecordEx⟩

/-! ## Theorems -/

/-- C1, counterexample: for the remote URL `http://example.com/pic.png`
the temporary file downloaded by `upload_picture` is NOT deleted when
the SDK upload call raises: the `os.remove` line (client.py:116-117)
is only reached after the upload returns normally, so on the raising
path the file survives, refuting the cleanup-on-all-paths claim. -/
theorem upload_picture_leak_on_raise :
    pyStartsWith "http://example.com/pic.png" "http" = true ∧
    (upload_picture (some 42) "http://example.com/pic.png"
        (Except.error ())).tempFileRemains = true :=
  ⟨rfl, rfl⟩

/-- C1, amended: for a remote URL (with a non-empty basename, as needed
for the download target), `upload_picture` deletes the temporary file
exactly when the SDK upload call returns normally; when that call
raises, the temporary file is left behind. -/
theorem upload_picture_temp_cleanup (st : Option Nat) (fp : String)
    (out : Except Unit JVal) (hrem : pyStartsWith fp "http" = true)
    (hbase : (basename fp).data.isEmpty = false) :
    (upload_picture st fp out).tempFileRemains =
      match out with
      | .error _ => true
      | .ok _ => false := by
  cases out <;> simp [upload_picture, hrem, hbase]

/-- Witness for `upload_picture_temp_cleanup` at the remote URL
`http://example.com/pic.png` with a successful upload. -/
theorem upload_picture_temp_cleanup_witness :
    (upload_picture none "http://example.com/pic.png"
        (Except.ok JVal.null)).tempFileRemains =
      match (Except.ok JVal.null : Except Unit JVal) with
      | .error _ => true
      | .ok _ => false :=
  upload_picture_temp_cleanup none "http://example.com/pic.png"
    (Except.ok JVal.null) rfl rfl

/-- C2, counterexample: `upload_picture` contains no
`_set_response_code` call, so whatever status the field held before the
call is still there afterwards — with prior value `42` it stays `42`,
with prior value `7` it stays `7` — hence the field is not overwritten
by every operation. -/
theorem upload_picture_keeps_stale_code :
    (upload_picture (some 42) "pic.png" (Except.ok JVal.null)).code = some 42 ∧
    (upload_picture (some 7) "pic.png" (Except.ok JVal.null)).code = some 7 :=
  ⟨rfl, rfl⟩

/-- C2, amended: every public operation that completes normally
overwrites `response_code` with the status of its own request — the
direct-HTTP methods store their response's status code, `upload_video`
stores `200` or resets to `None` — EXCEPT `upload_picture`, which never
touches the field; `change_video_content_rating` writes it only on the
validated path (on an invalid rating it raises before any request). -/
theorem response_code_overwrite (st : Option Nat)
    (fp u t fn nfn dl vn ll dom tg r : String)
    (nameO descO fu : Option String) (settings : List (String × JVal))
    (sdk : Option String) (out : Except Unit JVal) (fs : Option Nat)
    (uid : Option Int) (b : Bool) (resp hresp presp : HttpResponse) :
    (upload_picture st fp out).code = st ∧
    (upload_video st nameO descO settings sdk).1 =
      set_response_code (if pyTruthyStr sdk then some 200 else none) ∧
    (get_video u resp).code = set_response_code (some resp.status_code) ∧
    (get_common_video_information u resp).code =
      set_response_code (some resp.status_code) ∧
    (pull_video_from_url dl vn fu fs settings ll hresp presp).code =
      set_response_code (some presp.status_code) ∧
    (update_video_title u t resp).code = set_response_code (some resp.status_code) ∧
    (delete_video u resp).code = set_response_code (some resp.status_code) ∧
    (create_folder uid fn resp).code = set_response_code (some resp.status_code) ∧
    (update_folder_name fn nfn resp).code = set_response_code (some resp.status_code) ∧
    (delete_folder fn b resp).code = set_response_code (some resp.status_code) ∧
    (remove_video_from_folder fn u resp).code =
      set_response_code (some resp.status_code) ∧
    (add_video_to_folder fn u resp).code = set_response_code (some resp.status_code) ∧
    (tag_video u tg resp).code = set_response_code (some resp.status_code) ∧
    (remove_tag_from_video u tg resp).code =
      set_response_code (some resp.status_code) ∧
    (domain_whitelist_video u dom resp).code =
      set_response_code (some resp.status_code) ∧
    (get_video_hash u resp).code = set_response_code (some resp.status_code) ∧
    (change_video_content_rating st u r resp).code =
      (if r ∈ validRatings then set_response_code (some resp.status_code) else st) := by
  cases out with
  | error e =>
    refine ⟨rfl, rfl, rfl, rfl, rfl, rfl, rfl, rfl, rfl, rfl, rfl, rfl, rfl, rfl,
      rfl, rfl, ?_⟩
    by_cases h : r ∈ validRatings <;> simp [change_video_content_rating, h]
  | ok v =>
    refine ⟨rfl, rfl, rfl, rfl, rfl, rfl, rfl, rfl, rfl, rfl, rfl, rfl, rfl, rfl,
      rfl, rfl, ?_⟩
    by_cases h : r ∈ validRatings <;> simp [change_video_content_rating, h]

/-- C7: the three folder methods return the very `folder_uri` they were
given, whatever the remote response contains. -/
theorem folder_methods_return_input_uri (f nfn vu : String) (b : Bool)
    (r1 r2 r3 : HttpResponse) :
    (update_folder_name f nfn r1).ret = f ∧
    (delete_folder f b r2).ret = f ∧
    (remove_video_from_folder f vu r3).ret = f :=
  ⟨rfl, rfl, rfl⟩

/-- C8: `tag_video "/videos/42" "demo"` issues exactly one request, a
PUT to `https://api.vimeo.com/videos/42/tags/demo` (the id being the
last path segment of the URI), and returns the response's status code
unchanged. -/
theorem tag_video_put_endpoint (resp : HttpResponse) :
    (tag_video "/videos/42" "demo" resp).requests =
      [⟨Method.PUT, "https://api.vimeo.com/videos/42/tags/demo", none⟩] ∧
    (tag_video "/videos/42" "demo" resp).ret = resp.status_code :=
  ⟨rfl, rfl⟩

/-- C9: after `upload_video` the `response_code` field is either
`some 200` or `none`, never any other value, and it is `some 200`
exactly when the SDK upload returned a truthy (non-empty) resource
identifier. -/
theorem upload_video_status_200_or_none (st : Option Nat)
    (nameO descO : Option String) (settings : List (String × JVal))
    (sdk : Option String) :
    ((upload_video st nameO descO settings sdk).1 = some 200 ∨
     (upload_video st nameO descO settings sdk).1 = none) ∧
    ((upload_video st nameO descO settings sdk).1 = some 200 ↔
      pyTruthyStr sdk = true) := by
  cases sdk with
  | none => simp [upload_video, set_response_code, pyTruthyStr]
  | some s =>
    by_cases h : s.data.isEmpty <;>
      simp [upload_video, set_response_code, pyTruthyStr, h]

/-- Witness for `upload_video_status_200_or_none` at a successful
upload returning `/videos/9`. -/
theorem upload_video_status_witness :
    ((upload_video none none none [] (some "/videos/9")).1 = some 200 ∨
     (upload_video none none none [] (some "/videos/9")).1 = none) ∧
    ((upload_video none none none [] (some "/videos/9")).1 = some 200 ↔
      pyTruthyStr (some "/videos/9") = true) :=
  upload_video_status_200_or_none none none none [] (some "/videos/9")

/-- C4: `change_video_content_rating` with a rating outside the fixed
closed set issues no request at all and raises (`.error ()`); with a
rating inside the set it issues exactly one PATCH to
`https://api.vimeo.com/videos/{id}` and does not raise. -/
theorem change_rating_closed_set (st : Option Nat) (u rating : String)
    (resp : HttpResponse) :
    ((change_video_content_rating st u rating resp).requests =
      if rating ∈ validRatings then
        [⟨Method.PATCH, "https://api.vimeo.com/videos/" ++ lastSegment u,
          some (JVal.obj [("content_rating", JVal.arr [JVal.str rating])])⟩]
      else []) ∧
    ((change_video_content_rating st u rating resp).ret = Except.error () ↔
      rating ∉ validRatings) := by
  by_cases h : rating ∈ validRatings <;> simp [change_video_content_rating, h]

/-- Witness for `change_rating_closed_set` at the unsupported rating
`"spicy"`: no request is issued and the call raises. -/
theorem change_rating_closed_set_witness :
    ((change_video_content_rating none "/videos/42" "spicy"
        ⟨200, [], JVal.null⟩).requests =
      if "spicy" ∈ validRatings then
        [⟨Method.PATCH, "https://api.vimeo.com/videos/" ++ lastSegment "/videos/42",
          some (JVal.obj [("content_rating", JVal.arr [JVal.str "spicy"])])⟩]
      else []) ∧
    ((change_video_content_rating none "/videos/42" "spicy"
        ⟨200, [], JVal.null⟩).ret = Except.error () ↔
      "spicy" ∉ validRatings) :=
  change_rating_closed_set none "/videos/42" "spicy" ⟨200, [], JVal.null⟩

/-- C6: a non-empty `settings` dictionary fully replaces the default
body: `upload_video` hands the SDK exactly `settings`, and the POST
issued by `pull_video_from_url` carries exactly `settings` as its body
— no default field survives. -/
theorem settings_override_replaces (st : Option Nat)
    (nameO descO : Option String) (settings : List (String × JVal))
    (h : settings ≠ []) (sdk : Option String) (dl vn ll : String)
    (fu : Option String) (fs : Option Nat) (hr pr : HttpResponse) :
    (upload_video st nameO descO settings sdk).2.2 = JVal.obj settings ∧
    (pull_video_from_url dl vn fu fs settings ll hr pr).requests.getLast? =
      some ⟨Method.POST, "https://api.vimeo.com/me/videos",
            some (JVal.obj settings)⟩ := by
  have hne : settings.isEmpty = false := by
    cases settings with
    | nil => exact absurd rfl h
    | cons a l => rfl
  constructor
  · simp [upload_video, upload_video_data, hne]
  · simp [pull_video_from_url, hne]

/-- Witness for `settings_override_replaces` at
`settings = [("name", "x")]`. -/
theorem settings_override_replaces_witness :
    (upload_video none none none [("name", JVal.str "x")] none).2.2 =
      JVal.obj [("name", JVal.str "x")] ∧
    (pull_video_from_url "http://example.com/v.mp4" "vid" none none
        [("name", JVal.str "x")] "" ⟨200, [], JVal.null⟩
        ⟨201, [], JVal.null⟩).requests.getLast? =
      some ⟨Method.POST, "https://api.vimeo.com/me/videos",
            some (JVal.obj [("name", JVal.str "x")])⟩ :=
  settings_override_replaces none none none [("name", JVal.str "x")]
    (List.cons_ne_nil _ _) none "http://example.com/v.mp4" "vid" "" none none
    ⟨200, [], JVal.null⟩ ⟨201, [], JVal.null⟩

/-- C10: an empty `settings` dictionary is falsy in Python, so both
methods fall back to the full default template — `upload_video`'s body
carries the default privacy, content-rating and review-page fields, and
`pull_video_from_url`'s POST body carries those plus the default embed
appearance and folder placement; neither body is the empty dict. -/
theorem empty_settings_full_default (st : Option Nat)
    (nameO descO : Option String) (sdk : Option String) (dl vn ll : String)
    (fu : Option String) (fs : Option Nat) (hr pr : HttpResponse) :
    (upload_video st nameO descO [] sdk).2.2 =
      upload_video_default_data nameO descO ∧
    jlookup (upload_video_default_data nameO descO) "privacy" =
      some defaultPrivacy ∧
    jlookup (upload_video_default_data nameO descO) "content_rating" =
      some (JVal.arr [JVal.str "safe"]) ∧
    jlookup (upload_video_default_data nameO descO) "review_page" =
      some (JVal.obj [("active", JVal.bool false)]) ∧
    upload_video_default_data nameO descO ≠ JVal.obj [] ∧
    (pull_video_from_url dl vn fu fs [] ll hr pr).requests.getLast? =
      some ⟨Method.POST, "https://api.vimeo.com/me/videos",
            some (pull_default_data dl vn fu (pull_size fs hr.headers) ll)⟩ ∧
    jlookup (pull_default_data dl vn fu (pull_size fs hr.headers) ll) "privacy" =
      some defaultPrivacy ∧
    jlookup (pull_default_data dl vn fu (pull_size fs hr.headers) ll)
        "content_rating" = some (JVal.arr [JVal.str "safe"]) ∧
    jlookup (pull_default_data dl vn fu (pull_size fs hr.headers) ll)
        "review_page" = some (JVal.obj [("active", JVal.bool false)]) ∧
    jlookup (pull_default_data dl vn fu (pull_size fs hr.headers) ll) "embed" =
      some (pullDefaultEmbed ll) ∧
    jlookup (pull_default_data dl vn fu (pull_size fs hr.headers) ll)
        "folder_uri" =
      some (if pyTruthyStr fu then JVal.str (fu.getD "") else JVal.null) ∧
    pull_default_data dl vn fu (pull_size fs hr.headers) ll ≠ JVal.obj [] := by
  refine ⟨rfl, rfl, rfl, rfl, ?_, ?_, rfl, rfl, rfl, rfl, rfl, ?_⟩
  · simp [upload_video_default_data]
  · simp [pull_video_from_url]
  · simp [pull_default_data]

/-- Witness for `empty_settings_full_default`: with an empty settings
dict, `upload_video` hands the SDK the full default template. -/
theorem empty_settings_full_default_witness :
    (upload_video none none none [] none).2.2 =
      upload_video_default_data none none :=
  (empty_settings_full_default none none none none "http://example.com/v.mp4"
      "vid" "" none none ⟨200, [], JVal.null⟩ ⟨201, [], JVal.null⟩).1

/-- C3, counterexample: the caller explicitly supplies
`file_size = 0`, yet a preliminary HEAD request is still issued — the
source guards with Python truthiness (`if not file_size`), not with
"was a size provided", refuting "when the caller supplies a size, no
HEAD request is issued". -/
theorem pull_head_despite_supplied_size :
    (pull_video_from_url "http://example.com/v.mp4" "vid" none (some 0) [] ""
        ⟨200, [], JVal.null⟩
        ⟨201, [], JVal.obj [("uri", JVal.str "/videos/7")]⟩).requests.head? =
      some ⟨Method.HEAD, "http://example.com/v.mp4", none⟩ :=
  rfl

/-- C3, amended: `pull_video_from_url` issues the preliminary HEAD
request exactly when the supplied `file_size` is falsy (`None` or `0`);
a non-zero supplied size suppresses it; and when the HEAD response
carries no `Content-Length` header the size used — and, under the
default template, placed in the request body — is `0`. -/
theorem pull_head_request_condition (dl vn ll : String) (fu : Option String)
    (fs : Option Nat) (settings : List (String × JVal)) (hr pr : HttpResponse) :
    ((pull_video_from_url dl vn fu fs settings ll hr pr).requests =
      (if pyTruthyNat fs then [] else [⟨Method.HEAD, dl, none⟩]) ++
      [⟨Method.POST, "https://api.vimeo.com/me/videos",
        some (if settings.isEmpty then
                pull_default_data dl vn fu (pull_size fs hr.headers) ll
              else JVal.obj settings)⟩]) ∧
    (pyTruthyNat fs = false → lookupHeader hr.headers "Content-Length" = none →
      pull_size fs hr.headers = JVal.num 0) ∧
    (pyTruthyNat fs = false → settings = [] →
      lookupHeader hr.headers "Content-Length" = none →
      (pull_video_from_url dl vn fu fs settings ll hr pr).requests =
        [⟨Method.HEAD, dl, none⟩,
         ⟨Method.POST, "https://api.vimeo.com/me/videos",
          some (pull_default_data dl vn fu (JVal.num 0) ll)⟩]) := by
  refine ⟨rfl, ?_, ?_⟩
  · intro h1 h2
    simp [pull_size, pull_head_size, h1, h2]
  · intro h1 h2 h3
    subst h2
    simp [pull_video_from_url, pull_head_reqs, pull_size, pull_head_size, h1, h3]

/-- Witness for `pull_head_request_condition` with no supplied size and
a HEAD response without `Content-Length`: the HEAD request is issued
and the body size is `0`. -/
theorem pull_head_request_condition_witness :
    (pull_video_from_url "http://example.com/v.mp4" "vid" none none [] ""
        ⟨200, [], JVal.null⟩ ⟨201, [], JVal.null⟩).requests =
      [⟨Method.HEAD, "http://example.com/v.mp4", none⟩,
       ⟨Method.POST, "https://api.vimeo.com/me/videos",
        some (pull_default_data "http://example.com/v.mp4" "vid" none
                (JVal.num 0) "")⟩] :=
  (pull_head_request_condition "http://example.com/v.mp4" "vid" "" none none []
      ⟨200, [], JVal.null⟩ ⟨201, [], JVal.null⟩).2.2 rfl rfl rfl

/-- C5: `get_video_hash` is total on any returned record — it always
returns `(hashExtract record).getD ""` — and degrades to `""` at every
failure point of the pipeline (`embed` key missing, `html` key missing,
`html` not a string, no iframe `src` in the HTML, no `h` query
parameter); on the success path it returns the first value of the `h`
query parameter of the iframe's `src` URL. -/
theorem get_video_hash_best_effort (u : String) (resp : HttpResponse) :
    ((get_video_hash u resp).ret = (hashExtract resp.jsonBody).getD "") ∧
    (jlookup resp.jsonBody "embed" = none → (get_video_hash u resp).ret = "") ∧
    (∀ e, jlookup resp.jsonBody "embed" = some e → jlookup e "html" = none →
      (get_video_hash u resp).ret = "") ∧
    (∀ e hv, jlookup resp.jsonBody "embed" = some e →
      jlookup e "html" = some hv → asStr hv = none →
      (get_video_hash u resp).ret = "") ∧
    (∀ e html, jlookup resp.jsonBody "embed" = some e →
      jlookup e "html" = some (JVal.str html) → findIframeSrc html = none →
      (get_video_hash u resp).ret = "") ∧
    (∀ e html src, jlookup resp.jsonBody "embed" = some e →
      jlookup e "html" = some (JVal.str html) → findIframeSrc html = some src →
      parse_qs_get (urlQuery (pyReplace src "&amp;" "&")) "h" = none →
      (get_video_hash u resp).ret = "") ∧
    (∀ e html src hs v, jlookup resp.jsonBody "embed" = some e →
      jlookup e "html" = some (JVal.str html) → findIframeSrc html = some src →
      parse_qs_get (urlQuery (pyReplace src "&amp;" "&")) "h" = some hs →
      hs.head? = some v → (get_video_hash u resp).ret = v) := by
  refine ⟨rfl, ?_, ?_, ?_, ?_, ?_, ?_⟩
  · intro h1
    simp [get_video_hash, get_video, hashExtract, h1]
  · intro e h1 h2
    simp [get_video_hash, get_video, hashExtract, h1, h2]
  · intro e hv h1 h2 h3
    simp [get_video_hash, get_video, hashExtract, h1, h2, h3]
  · intro e html h1 h2 h3
    simp [get_video_hash, get_video, hashExtract, asStr, h1, h2, h3]
  · intro e html src h1 h2 h3 h4
    simp [get_video_hash, get_video, hashExtract, asStr, h1, h2, h3, h4]
  · intro e html src hs v h1 h2 h3 h4 h5
    simp [get_video_hash, get_video, hashExtract, asStr, h1, h2, h3, h4, h5]

/-- Witness for `get_video_hash_best_effort` on the concrete record
`videoRecordEx`: the extracted hash is `abcdef12`. -/
theorem get_video_hash_best_effort_witness :
    (get_video_hash "/videos/658371443" respEx).ret = "abcdef12" :=
  (get_video_hash_best_effort "/videos/658371443" respEx).2.2.2.2.2.2
    (JVal.obj [("html", JVal.str embedHtmlEx)]) embedHtmlEx
    "https://player.vimeo.com/video/658371443?h=abcdef12&amp;badge=0"
    ["abcdef12"] "abcdef12" rfl rfl rfl rfl rfl

end PyVimeo
